import Mathlib

/-!
Shallow embedding of the Lifegate WhatsApp triage core
(`whatsapp/session_manager.py`, `whatsapp/models.py`,
`whatsapp/clinician_escalation.py`, `whatsapp/ai_engine.py`,
`whatsapp/views.py`) and verification of the specified properties.

Conventions of the embedding:
* Python strings are Lean `String`s; Python's `needle in haystack`
  substring test is `pyIn`, defined as contiguous-sublist containment on
  the character lists.
* `str.lower()` is `lowerStr` (per-character `Char.toLower`; all strings
  the program compares are ASCII).
* Python `None`-able values are `Option`; Python truthiness of an
  optional int / string is `truthyInt` / `truthyStr` (`None`, `0` and
  `""` are falsy).
* Django ORM rows are Lean structures keeping the model field names;
  the database is the `Db` structure of lists of rows; `save()` is an
  in-place row replacement; `QuerySet.filter/order_by` are list filter
  and a stable insertion sort by the same key.
* A Python exception is the `Except` error branch; the spec's state
  names NEW / AI_FOLLOWUP / SUMMARY_PENDING / CONNECTING_TO_CLINICIAN /
  CLINICIAN_ACTIVE are the code's NEW_USER / AI_FOLLOWUP_QUESTIONS /
  SUMMARY_AND_RECOMMENDATIONS / CONNECT_TO_CLINICIAN /
  CLINICIAN_CHAT_ACTIVE.
-/

namespace Lifegate

/-- Python runtime errors that the embedded code can raise. -/
inductive PyErr where
  | nameError
  | noneTypeError
deriving DecidableEq, Repr

/-- Values storable in a session's JSON `session_data` / a turn's
`data_to_store` dict (`ai_engine.py` stores strings, ints, bools and,
for `full_summary`, a structured payload; see `PySummary` below). -/
inductive PyVal where
  | str (s : String)
  | int (n : Int)
  | bool (b : Bool)
  | summary (overview key_observations recommendations medications monitoring_advice : String)
    (should_escalate : Bool) (escalation_reason : Option String)
deriving DecidableEq, Repr

/-- `str.lower()` (ASCII). -/
def lowerStr (s : String) : String :=
  ⟨s.toList.map Char.toLower⟩

/-- Does `n` occur at the head of `h`? (helper for substring search). -/
def leadsWith : List Char → List Char → Bool
  | [], _ => true
  | _ :: _, [] => false
  | a :: as, b :: bs => a == b && leadsWith as bs

/-- Does `n` occur contiguously anywhere inside `h`? -/
def isSubChain (n : List Char) : List Char → Bool
  | [] => n.isEmpty
  | b :: bs => leadsWith n (b :: bs) || isSubChain n bs

/-- Python's `needle in hay` on strings. -/
def pyIn (needle hay : String) : Bool :=
  isSubChain needle.toList hay.toList

/-- Python's `' '.join(...)` on character lists. -/
def joinSp : List (List Char) → List Char
  | [] => []
  | [x] => x
  | x :: xs => x ++ ' ' :: joinSp xs

/-- Python truthiness of an optional integer (`None` and `0` falsy). -/
def truthyInt : Option Int → Bool
  | none => false
  | some n => n != 0

/-- Python truthiness of an optional string (`None` and `""` falsy). -/
def truthyStr : Option String → Bool
  | none => false
  | some s => s != ""

/-- `dict.get(k)` on an association list. -/
def getData (d : List (String × PyVal)) (k : String) : Option PyVal :=
  (d.find? (fun p => p.1 == k)).map (fun p => p.2)

/-- `dict.get(k, default)` where an int is expected. -/
def getInt (d : List (String × PyVal)) (k : String) (dflt : Int) : Int :=
  match getData d k with
  | some (.int n) => n
  | _ => dflt

/-- `dict.get(k, default)` where a string is expected. -/
def getStr (d : List (String × PyVal)) (k : String) (dflt : String) : String :=
  match getData d k with
  | some (.str s) => s
  | _ => dflt

/-- Python list indexing (negative indices count from the end). -/
def pyListGet (l : List String) (i : Int) : Option String :=
  if 0 ≤ i then l.get? i.toNat
  else if (-i).toNat ≤ l.length then l.get? (l.length - (-i).toNat)
  else none

/-- Stable insertion into a list sorted by `le` (helper for `sortLe`). -/
def insertLe (le : α → α → Bool) (x : α) : List α → List α
  | [] => [x]
  | y :: ys => if le x y then x :: y :: ys else y :: insertLe le x ys

/-- Stable sort by the boolean comparator `le`; models SQL `ORDER BY`. -/
def sortLe (le : α → α → Bool) : List α → List α
  | [] => []
  | x :: xs => insertLe le x (sortLe le xs)

/-- Byte-wise lexicographic `<` on character lists; models the database
collation used by `ORDER BY` on a text column. -/
def chainLt : List Char → List Char → Bool
  | [], [] => false
  | [], _ :: _ => true
  | _ :: _, [] => false
  | a :: as, b :: bs => if a == b then chainLt as bs else decide (a.toNat < b.toNat)

/-! ## Session states and transitions (`session_manager.py`) -/

/-- `PatientSession.STATE_CHOICES` (`models.py` lines 11-21). -/
inductive SessionState where
  | NEW_USER
  | COLLECTING_PROFILE
  | COLLECTING_SYMPTOMS
  | AI_FOLLOWUP_QUESTIONS
  | SUMMARY_AND_RECOMMENDATIONS
  | AWAITING_CLINICIAN_DECISION
  | CONNECT_TO_CLINICIAN
  | CLINICIAN_CHAT_ACTIVE
  | COMPLETED
deriving DecidableEq, Repr

/-- `SessionManager.STATE_TRANSITIONS` (`session_manager.py` lines 9-18);
a state absent from the dict (only `COMPLETED`) gets the `dict.get`
default `[]` used at line 56. -/
def STATE_TRANSITIONS : SessionState → List SessionState
  | .NEW_USER => [.COLLECTING_PROFILE]
  | .COLLECTING_PROFILE => [.COLLECTING_SYMPTOMS, .CONNECT_TO_CLINICIAN]
  | .COLLECTING_SYMPTOMS => [.AI_FOLLOWUP_QUESTIONS, .CONNECT_TO_CLINICIAN]
  | .AI_FOLLOWUP_QUESTIONS => [.SUMMARY_AND_RECOMMENDATIONS, .CONNECT_TO_CLINICIAN]
  | .SUMMARY_AND_RECOMMENDATIONS => [.AWAITING_CLINICIAN_DECISION, .COMPLETED]
  | .AWAITING_CLINICIAN_DECISION => [.CONNECT_TO_CLINICIAN, .COMPLETED]
  | .CONNECT_TO_CLINICIAN => [.CLINICIAN_CHAT_ACTIVE]
  | .CLINICIAN_CHAT_ACTIVE => [.COMPLETED]
  | .COMPLETED => []

/-- `SessionManager.transition_to` (`session_manager.py` lines 52-66):
returns the reported success flag and the session state after the call. -/
def transition_to (current new_state : SessionState) : Bool × SessionState :=
  if new_state ∈ STATE_TRANSITIONS current then (true, new_state)
  else if new_state = .CONNECT_TO_CLINICIAN ∨ new_state = .COMPLETED then (true, new_state)
  else (false, current)

/-! ## Database rows (`models.py`) -/

/-- `EscalationQueue.PRIORITY_CHOICES` (`models.py` lines 144-149). -/
inductive Priority where
  | LOW
  | MEDIUM
  | HIGH
  | URGENT
deriving DecidableEq, Repr

/-- The string stored in the `priority` text column for each tier. -/
def priorityStr : Priority → String
  | .LOW => "LOW"
  | .MEDIUM => "MEDIUM"
  | .HIGH => "HIGH"
  | .URGENT => "URGENT"

/-- Tier rank under the clinical order LOW < MEDIUM < HIGH < URGENT. -/
def rank : Priority → Nat
  | .LOW => 0
  | .MEDIUM => 1
  | .HIGH => 2
  | .URGENT => 3

/-- One `MessageLog` row (`models.py` lines 82-109), restricted to the
fields the escalation logic reads. -/
structure MessageRec where
  content : String
  is_from_user : Bool
deriving DecidableEq, Repr

/-- One `PatientSession` row (`models.py` lines 8-58), restricted to the
fields read or written by the escalation and priority logic; `messages`
is the session's `MessageLog` set in creation order. -/
structure SessionRec where
  id : Nat
  state : SessionState
  assigned_clinician : Option Nat
  age : Option Int
  medical_history : Option String
  messages : List MessageRec
deriving DecidableEq, Repr

/-- One `EscalationQueue` row (`models.py` lines 141-177); `session` is
the owning session's id (a one-to-one key). -/
structure EscalationRec where
  session : Nat
  priority : Priority
  reason : String
  ai_assessment : String
  assigned_to : Option Nat
  is_resolved : Bool
  created_at : Nat
  assigned_at : Option Nat
  resolved_at : Option Nat
deriving DecidableEq, Repr

/-- One `ClinicianAvailability` row (`models.py` lines 118-138). -/
structure ClinicianAvailabilityRec where
  clinician : Nat
  is_available : Bool
  current_active_cases : Int
  max_concurrent_cases : Int
  last_active : Nat
deriving DecidableEq, Repr

/-- The database state the escalation engine touches. -/
structure Db where
  sessions : List SessionRec
  escalations : List EscalationRec
  clinicians : List ClinicianAvailabilityRec
deriving DecidableEq, Repr

/-- `ClinicianAvailability.objects.get(clinician=c)` (first row match). -/
def lookupClin (l : List ClinicianAvailabilityRec) (c : Nat) : Option ClinicianAvailabilityRec :=
  l.find? (fun a => a.clinician == c)

/-- `availability.save()` after setting `current_active_cases := v`. -/
def setClinCount (l : List ClinicianAvailabilityRec) (c : Nat) (v : Int) :
    List ClinicianAvailabilityRec :=
  l.map (fun a => if a.clinician == c then { a with current_active_cases := v } else a)

/-- `escalation.save()`: replace the row with the same session key. -/
def saveEsc (db : Db) (e : EscalationRec) : Db :=
  { db with escalations := db.escalations.map (fun x => if x.session == e.session then e else x) }

/-- `session.save()` after setting `state` (and possibly
`assigned_clinician`): replace the row with the same id. -/
def saveSession (db : Db) (sid : Nat) (st : SessionState) (clin : Option Nat) : Db :=
  { db with sessions := db.sessions.map (fun s =>
      if s.id == sid then
        { s with
            state := st,
            assigned_clinician :=
              (match clin with | some c => some c | none => s.assigned_clinician) }
      else s) }

/-- `EscalationQueue.objects.get/get_or_create(session=sid)` row lookup. -/
def lookupEsc (db : Db) (sid : Nat) : Option EscalationRec :=
  db.escalations.find? (fun x => x.session == sid)

/-! ## Escalation engine (`clinician_escalation.py`) -/

/-- `ClinicianEscalation.URGENT_KEYWORDS` (lines 9-13). -/
def URGENT_KEYWORDS : List String :=
  ["chest pain", "can\x27t breathe", "difficulty breathing",
   "severe pain", "bleeding heavily", "unconscious",
   "seizure", "stroke", "heart attack", "suicide"]

/-- `ClinicianEscalation.HIGH_PRIORITY_KEYWORDS` (lines 15-18). -/
def HIGH_PRIORITY_KEYWORDS : List String :=
  ["severe", "intense", "unbearable", "emergency",
   "very bad", "getting worse", "spreading"]

/-- `' '.join(msg.content.lower() for msg in session.messages.filter(is_from_user=True))`
(`_calculate_priority` lines 52-56). -/
def all_user_text (session : SessionRec) : List Char :=
  joinSp ((session.messages.filter (fun m => m.is_from_user)).map
    (fun m => (lowerStr m.content).toList))

/-- `ClinicianEscalation._calculate_priority` (lines 49-77). The
`reason` argument is accepted and, as in the source, never read. -/
def calculate_priority (session : SessionRec) (reason : String) : Priority :=
  if URGENT_KEYWORDS.any (fun kw => isSubChain kw.toList (all_user_text session)) then .URGENT
  else if HIGH_PRIORITY_KEYWORDS.any (fun kw => isSubChain kw.toList (all_user_text session)) then
    .HIGH
  else
    let rest : Priority :=
      match session.medical_history with
      | some h => if h ≠ "" ∧ pyIn "pregnant" (lowerStr h) then .HIGH else .MEDIUM
      | none => .MEDIUM
    match session.age with
    | some a => if a ≠ 0 ∧ (a < 2 ∨ a > 65) then .HIGH else rest
    | none => rest

/-- `availability.current_active_cases += 1; availability.save()`
(lines 115-117); the boolean records whether the
`ClinicianAvailability.objects.get` found a row (a missing row raises
`DoesNotExist`, which the enclosing `try` turns into `False`). -/
def incClin (l : List ClinicianAvailabilityRec) (c : Nat) :
    List ClinicianAvailabilityRec × Bool :=
  match lookupClin l c with
  | some a => (setClinCount l c (a.current_active_cases + 1), true)
  | none => (l, false)

/-- `availability.current_active_cases = max(0, current - 1);
availability.save()` (lines 143-145); a missing row is passed over. -/
def decClin (l : List ClinicianAvailabilityRec) (c : Nat) :
    List ClinicianAvailabilityRec :=
  match lookupClin l c with
  | some a => setClinCount l c (max 0 (a.current_active_cases - 1))
  | none => l

/-- `ClinicianEscalation.assign_to_clinician` (lines 99-126): sets the
case's `assigned_to`/`assigned_at` and saves it, saves the session as
`CLINICIAN_CHAT_ACTIVE` with the clinician, then increments the
clinician's workload counter. A missing `ClinicianAvailability` row
raises `DoesNotExist`, which the bare `except` turns into `False` after
the first two saves (the notification call only prints). Returns the
database, the mutated in-memory case object, and the reported flag. -/
def assign_to_clinician (now : Nat) (db : Db) (e : EscalationRec) (c : Nat) :
    Db × EscalationRec × Bool :=
  let e1 := { e with assigned_to := some c, assigned_at := some now }
  let db1 := saveEsc db e1
  let db2 := saveSession db1 e1.session .CLINICIAN_CHAT_ACTIVE (some c)
  let r := incClin db2.clinicians c
  ({ db2 with clinicians := r.1 }, e1, r.2)

/-- The names bound at module level in `clinician_escalation.py` (its
`import` lines 1-4 plus its own class definitions). `models` is not
among them: the module never imports `django.db.models`. -/
def clinician_escalation_globals : List String :=
  ["EscalationQueue", "ClinicianAvailability", "PatientSession", "User",
   "timezone", "Q", "ClinicianEscalation", "ClinicianMessaging"]

/-- `ClinicianEscalation.assign_to_available_clinician` (lines 79-97).
Evaluating the filter at line 85 reads the module-level name `models`
(`models.F('max_concurrent_cases')`); if that name is unbound the call
raises `NameError` before touching the database. The `if` below keeps
the intended path (filter the eligible clinicians, order ascending by
workload, assign to the first) exactly as written, guarded by whether
`models` resolves. -/
def assign_to_available_clinician (now : Nat) (db : Db) (e : EscalationRec) :
    Db × EscalationRec × Except PyErr Bool :=
  if clinician_escalation_globals.contains "models" then
    let available := db.clinicians.filter
      (fun a => a.is_available && decide (a.current_active_cases < a.max_concurrent_cases))
    match (sortLe (fun x y => decide (x.current_active_cases ≤ y.current_active_cases))
        available).head? with
    | none => (db, e, .ok false)
    | some a =>
      let r := assign_to_clinician now db e a.clinician
      (r.1, r.2.1, .ok r.2.2)
  else (db, e, .error .nameError)

/-- `ClinicianEscalation.resolve_escalation` (lines 128-147): marks the
case resolved, saves the session as `COMPLETED`, and if the case was
assigned decrements that clinician's counter floored at zero
(`max(0, current - 1)`); a missing availability row is passed over. -/
def resolve_escalation (now : Nat) (db : Db) (e : EscalationRec) : Db :=
  let e1 := { e with is_resolved := true, resolved_at := some now }
  let db1 := saveEsc db e1
  let db2 := saveSession db1 e1.session .COMPLETED none
  match e1.assigned_to with
  | some c => { db2 with clinicians := decClin db2.clinicians c }
  | none => db2

/-- `ClinicianEscalation.create_escalation` (lines 20-47): compute the
priority, `get_or_create` the case keyed on the session alone, update
the existing row's priority/reason (and assessment when given), then
attempt immediate assignment — whose `NameError` propagates out of the
call. Returns the database state (Django autocommit: the earlier saves
persist) and the call's outcome. -/
def create_escalation (now : Nat) (db : Db) (session : SessionRec) (reason : String)
    (ai_assessment : Option String) : Db × Except PyErr EscalationRec :=
  let priority := calculate_priority session reason
  match lookupEsc db session.id with
  | none =>
    let esc : EscalationRec :=
      { session := session.id, priority := priority, reason := reason,
        ai_assessment := ai_assessment.getD "No AI assessment available",
        assigned_to := none, is_resolved := false,
        created_at := now, assigned_at := none, resolved_at := none }
    let db1 := { db with escalations := db.escalations ++ [esc] }
    let r := assign_to_available_clinician now db1 esc
    (r.1, r.2.2.map (fun _ => r.2.1))
  | some e0 =>
    let esc :=
      { e0 with
          priority := priority, reason := reason,
          ai_assessment := (match ai_assessment with | some a => a | none => e0.ai_assessment) }
    let db1 := saveEsc db esc
    let r := assign_to_available_clinician now db1 esc
    (r.1, r.2.2.map (fun _ => r.2.1))

/-- `ClinicianEscalation.get_pending_escalations` (lines 149-154):
unresolved unassigned cases, `ORDER BY priority DESC, created_at ASC`
where `priority` is a text column, so the primary key compares the
tier's *string* under the database collation. -/
def pendLe (a b : EscalationRec) : Bool :=
  if priorityStr a.priority == priorityStr b.priority then decide (a.created_at ≤ b.created_at)
  else chainLt (priorityStr b.priority).toList (priorityStr a.priority).toList

/-- `ClinicianEscalation.get_pending_escalations` (lines 149-154). -/
def get_pending_escalations (db : Db) : List EscalationRec :=
  sortLe pendLe (db.escalations.filter (fun e => !e.is_resolved && e.assigned_to.isNone))

/-- One step of the clinician-workload workflow: assign the session's
case to a given clinician, or resolve the session's case (`views.py`
`accept_case` / `resolve_case` both fetch the case by key first). -/
inductive DbOp where
  | assignOp (sid c : Nat)
  | resolveOp (sid : Nat)
deriving DecidableEq, Repr

/-- Run one workflow step against the database. -/
def runOp (now : Nat) (db : Db) : DbOp → Db
  | .assignOp sid c =>
    match lookupEsc db sid with
    | some e => (assign_to_clinician now db e c).1
    | none => db
  | .resolveOp sid =>
    match lookupEsc db sid with
    | some e => resolve_escalation now db e
    | none => db

/-- Run a sequence of workflow steps. -/
def runOps (now : Nat) (db : Db) : List DbOp → Db
  | [] => db
  | op :: ops => runOps now (runOp now db op) ops

/-! ## Dialogue controller (`ai_engine.py`) -/

/-- The dict returned by every `AIEngineComplete` state handler.
`escalation_reason` is `none` when the Python dict has no such key. -/
structure TurnResult where
  response : String
  next_state : SessionState
  should_escalate : Bool
  escalation_reason : Option String
  data_to_store : List (String × PyVal)
deriving DecidableEq, Repr

/-- Parsed JSON payload expected from the service in
`_handle_symptom_collection` (question / should_escalate /
escalation_reason). -/
structure SymptomPayload where
  question : String
  should_escalate : Bool
  escalation_reason : Option String
deriving DecidableEq, Repr

/-- Parsed JSON payload expected in `_handle_followup_questions`. -/
structure FollowupPayload where
  question : String
  sufficient_info : Bool
  should_escalate : Bool
  escalation_reason : Option String
deriving DecidableEq, Repr

/-- Parsed JSON payload expected in `_handle_summary_generation`. -/
structure SummaryPayload where
  overview : String
  key_observations : String
  recommendations : String
  medications : String
  monitoring_advice : String
  should_escalate : Bool
  escalation_reason : Option String
deriving DecidableEq, Repr

/-- Outcomes of the external calls a turn can make. `api_*` is the
`_call_openai_api` outcome for that handler's request (`some text` on
success, `none` for a timeout/error/missing-key failure); `parse_*` is
`_parse_json_response` plus the subsequent key accesses, `none` when
`json.loads` fails or a required key is absent — in the source both
failures land in the same bare-`except` fallback. -/
structure Oracles where
  api_symptom : Option String
  parse_symptom : String → Option SymptomPayload
  api_followup : Option String
  parse_followup : String → Option FollowupPayload
  api_summary : Option String
  parse_summary : String → Option SummaryPayload

/-- Word characters for the regex `\b` boundary (`[A-Za-z0-9_]`). -/
def isWordChar (c : Char) : Bool :=
  c.isAlpha || c.isDigit || c == '_'

/-- Digit-run value, e.g. `['3','4'] ↦ 34`. -/
def digitsVal (run : List Char) : Nat :=
  run.foldl (fun a c => a * 10 + (c.toNat - 48)) 0

/-- `re.search(r'\b(\d{1,3})\b', message)` (`ai_engine.py` line 494):
the first maximal digit run of length 1-3 whose neighbours (when
present) are non-word characters; longer runs cannot match because any
proper sub-run has a digit neighbour. `prev` is the character just
before the unscanned rest. -/
def findNum (prev : Option Char) : List Char → Option Nat
  | [] => none
  | c :: rest =>
    if c.isDigit then
      let run := c :: rest.takeWhile Char.isDigit
      let rest' := rest.dropWhile Char.isDigit
      let prevOk := match prev with | none => true | some p => !isWordChar p
      let nextOk := match rest' with | [] => true | d :: _ => !isWordChar d
      if prevOk && run.length ≤ 3 && nextOk then some (digitsVal run)
      else findNum (some c) rest'
    else findNum (some c) rest
termination_by l => l.length
decreasing_by
  · simpa using Nat.lt_succ_of_le ((List.dropWhile_suffix Char.isDigit).length_le)
  · simp

/-- `AIEngineComplete._fallback_symptom_response` (lines 396-406). -/
def fallback_symptom_response (message : String) : TurnResult :=
  { response := "Thank you for sharing that. When did these symptoms start?",
    next_state := .AI_FOLLOWUP_QUESTIONS,
    should_escalate := false,
    escalation_reason := none,
    data_to_store := [("chief_complaint", .str message), ("question_count", .int 1)] }

/-- `AIEngineComplete._handle_symptom_collection` (lines 174-224): on a
successful service call whose payload parses, relay its question and
escalate flag; any service failure or parse/key failure falls back. -/
def handle_symptom_collection (api : Option String) (parse : String → Option SymptomPayload)
    (message : String) : TurnResult :=
  match api with
  | some text =>
    match parse text with
    | some d =>
      { response := d.question,
        next_state := .AI_FOLLOWUP_QUESTIONS,
        should_escalate := d.should_escalate,
        escalation_reason := d.escalation_reason,
        data_to_store := [("chief_complaint", .str message), ("question_count", .int 1)] }
    | none => fallback_symptom_response message
  | none => fallback_symptom_response message

/-- `AIEngineComplete._fallback_followup_response` (lines 408-432). -/
def fallback_followup_response (question_count : Int) : TurnResult :=
  if question_count ≥ 4 then
    { response := "Thank you. Let me prepare your assessment...",
      next_state := .SUMMARY_AND_RECOMMENDATIONS,
      should_escalate := false,
      escalation_reason := none,
      data_to_store := [("assessment_complete", .bool true)] }
  else
    let questions := ["On a scale of 1-10, how would you rate the severity?",
      "Have you noticed what makes it better or worse?",
      "Do you have any other symptoms?",
      "Have you taken any medication?"]
    { response := (pyListGet questions (min question_count 3)).getD "",
      next_state := .AI_FOLLOWUP_QUESTIONS,
      should_escalate := false,
      escalation_reason := none,
      data_to_store := [("question_count", .int (question_count + 1))] }

/-- `AIEngineComplete._handle_followup_questions` (lines 230-282). -/
def handle_followup_questions (api : Option String) (parse : String → Option FollowupPayload)
    (session_data : List (String × PyVal)) (message : String) : TurnResult :=
  let question_count := getInt session_data "question_count" 0
  if question_count ≥ 5 then
    { response := "Thank you. Let me prepare your assessment...",
      next_state := .SUMMARY_AND_RECOMMENDATIONS,
      should_escalate := false,
      escalation_reason := none,
      data_to_store := [("assessment_complete", .bool true)] }
  else
    match api with
    | some text =>
      match parse text with
      | some d =>
        if d.sufficient_info then
          { response := "Thank you. Let me prepare your assessment...",
            next_state := .SUMMARY_AND_RECOMMENDATIONS,
            should_escalate := d.should_escalate,
            escalation_reason := none,
            data_to_store := [("assessment_complete", .bool true)] }
        else
          { response := d.question,
            next_state := .AI_FOLLOWUP_QUESTIONS,
            should_escalate := d.should_escalate,
            escalation_reason := d.escalation_reason,
            data_to_store := [("question_count", .int (question_count + 1))] }
      | none => fallback_followup_response question_count
    | none => fallback_followup_response question_count

/-- `AIEngineComplete._format_summary_response` (lines 371-392). -/
def format_summary_response (s : SummaryPayload) : String :=
  "\n**Your Assessment**\n\n" ++ s.overview ++
  "\n\n**Key Observations**\n" ++ s.key_observations ++
  "\n\n**Recommendations**\n" ++ s.recommendations ++
  "\n\n**Medication Options**\n" ++ s.medications ++
  "\n\n**Monitoring Advice**\n" ++ s.monitoring_advice ++
  "\n\nWould you like to speak with a clinician? (Yes/No)\n"

/-- `AIEngineComplete._fallback_summary_response` (lines 434-466). -/
def fallback_summary_response (session_data : List (String × PyVal)) : TurnResult :=
  let chief_complaint := getStr session_data "chief_complaint" "your symptoms"
  { response := "**Your Assessment:**\n\nBased on your description of " ++ chief_complaint ++
      ", here are my recommendations:\n\n**Recommendations:**\n" ++
      "• Get adequate rest - aim for 7-8 hours of sleep\n" ++
      "• Stay well hydrated - drink plenty of water\n" ++
      "• Eat balanced, nutritious meals\n" ++
      "• Monitor your symptoms closely\n\n**Medication Options:**\n" ++
      "Consider over-the-counter options like paracetamol for pain or fever " ++
      "(follow package directions).\n\n**Important:**\n" ++
      "If symptoms worsen, persist beyond 2-3 days, or you develop new concerning " ++
      "symptoms, please seek medical attention.\n\n---\n\n" ++
      "Would you like to speak with a clinician? (Reply \x27Yes\x27 or \x27No\x27)",
    next_state := .AWAITING_CLINICIAN_DECISION,
    should_escalate := false,
    escalation_reason := none,
    data_to_store := [("ai_overview", .str ("Patient reported " ++ chief_complaint)),
      ("used_fallback", .bool true)] }

/-- `AIEngineComplete._handle_summary_generation` (lines 288-339). -/
def handle_summary_generation (api : Option String) (parse : String → Option SummaryPayload)
    (session_data : List (String × PyVal)) : TurnResult :=
  match api with
  | some text =>
    match parse text with
    | some s =>
      { response := format_summary_response s,
        next_state := .AWAITING_CLINICIAN_DECISION,
        should_escalate := s.should_escalate,
        escalation_reason := s.escalation_reason,
        data_to_store := [("ai_overview", .str s.overview),
          ("recommendations", .str s.recommendations),
          ("full_summary", .summary s.overview s.key_observations s.recommendations
            s.medications s.monitoring_advice s.should_escalate s.escalation_reason)] }
    | none => fallback_summary_response session_data
  | none => fallback_summary_response session_data

/-- `AIEngineComplete._handle_new_user` (lines 470-486). -/
def handle_new_user : TurnResult :=
  { response := "Welcome to Lifegate! 👋\n\nI\x27m your AI health assistant. " ++
      "I can help you:\n• Understand your symptoms\n• Provide health " ++
      "recommendations\n• Connect you with a clinician if needed\n\n" ++
      "Reply \x27Start\x27 to begin, or type \x27doctor\x27 anytime.",
    next_state := .COLLECTING_PROFILE,
    should_escalate := false,
    escalation_reason := none,
    data_to_store := [] }

/-- `AIEngineComplete._extract_gender` (lines 539-546): male keywords
are tested first by substring match on the lowercased text. -/
def extract_gender (message : String) : String :=
  let msg := lowerStr message
  if ["male", "man", "boy", "m"].any (fun w => pyIn w msg) then "Male"
  else if ["female", "woman", "girl", "f"].any (fun w => pyIn w msg) then "Female"
  else "Other"

/-- `AIEngineComplete._handle_profile_collection` (lines 488-519): asks
for / extracts age, then gender; when both `profile['age']` and
`profile['gender']` are already truthy, every branch is skipped and the
Python function returns `None`. -/
def handle_profile_collection (profile_age : Option Int) (profile_gender : Option String)
    (message : String) : Option TurnResult :=
  if !truthyInt profile_age then
    match findNum none message.toList with
    | some age =>
      if 0 < (age : Int) ∧ (age : Int) < 120 then
        some
          { response := "Thank you. What is your gender? (Male/Female/Other)",
            next_state := .COLLECTING_PROFILE,
            should_escalate := false,
            escalation_reason := none,
            data_to_store := [("profile_field", .str "age"), ("value", .int age)] }
      else
        some
          { response := "To provide the best care, may I know your age?",
            next_state := .COLLECTING_PROFILE,
            should_escalate := false,
            escalation_reason := none,
            data_to_store := [] }
    | none =>
      some
        { response := "To provide the best care, may I know your age?",
          next_state := .COLLECTING_PROFILE,
          should_escalate := false,
          escalation_reason := none,
          data_to_store := [] }
  else if !truthyStr profile_gender then
    some
      { response := "Thank you! Now, what brings you here today?",
        next_state := .COLLECTING_SYMPTOMS,
        should_escalate := false,
        escalation_reason := none,
        data_to_store :=
          [("profile_field", .str "gender"), ("value", .str (extract_gender message))] }
  else none

/-- `AIEngineComplete._handle_clinician_decision` (lines 521-537). -/
def handle_clinician_decision (message : String) : TurnResult :=
  if ["yes", "connect", "doctor"].any (fun w => pyIn w (lowerStr message)) then
    { response := "Connecting you with a clinician now...",
      next_state := .CONNECT_TO_CLINICIAN,
      should_escalate := true,
      escalation_reason := some "Patient requested",
      data_to_store := [] }
  else
    { response := "Take care! Message us anytime if you need help. 🌟",
      next_state := .COMPLETED,
      should_escalate := false,
      escalation_reason := none,
      data_to_store := [] }

/-- `AIEngineComplete.generate_response` (lines 142-168): dispatch on
the state string; the context's profile and session_data are passed as
separate arguments. Only the `COLLECTING_PROFILE` branch can produce
Python `None`, hence the `Option`. -/
def generate_response (o : Oracles) (profile_age : Option Int) (profile_gender : Option String)
    (session_data : List (String × PyVal)) (message : String) (state : SessionState) :
    Option TurnResult :=
  match state with
  | .NEW_USER => some handle_new_user
  | .COLLECTING_PROFILE => handle_profile_collection profile_age profile_gender message
  | .COLLECTING_SYMPTOMS => some (handle_symptom_collection o.api_symptom o.parse_symptom message)
  | .AI_FOLLOWUP_QUESTIONS =>
    some (handle_followup_questions o.api_followup o.parse_followup session_data message)
  | .SUMMARY_AND_RECOMMENDATIONS =>
    some (handle_summary_generation o.api_summary o.parse_summary session_data)
  | .AWAITING_CLINICIAN_DECISION => some (handle_clinician_decision message)
  | _ =>
    some
      { response := "I\x27m here to help. What brings you here today?",
        next_state := .COLLECTING_SYMPTOMS,
        should_escalate := false,
        escalation_reason := none,
        data_to_store := [] }

/-- `views.whatsapp_webhook` line 112, `ai_response['response']`:
subscripting Python `None` raises `TypeError` (`NoneType` is not
subscriptable). -/
def webhook_read_reply (r : Option TurnResult) : Except PyErr String :=
  match r with
  | some t => .ok t.response
  | none => .error .noneTypeError

/-! ## Concrete instances used by closed theorems -/

/-- An oracle in which every external call fails. -/
def oFail : Oracles :=
  { api_symptom := none, parse_symptom := fun _ => none,
    api_followup := none, parse_followup := fun _ => none,
    api_summary := none, parse_summary := fun _ => none }

/-- A session with an empty transcript and no profile. -/
def sess1 : SessionRec :=
  { id := 1, state := .COLLECTING_SYMPTOMS, assigned_clinician := none,
    age := none, medical_history := none, messages := [] }

/-- An unresolved, unassigned HIGH case created at time 1. -/
def escHIGH : EscalationRec :=
  { session := 1, priority := .HIGH, reason := "a", ai_assessment := "x",
    assigned_to := none, is_resolved := false, created_at := 1,
    assigned_at := none, resolved_at := none }

/-- An unresolved, unassigned MEDIUM case created at time 2. -/
def escMEDIUM : EscalationRec :=
  { session := 2, priority := .MEDIUM, reason := "b", ai_assessment := "y",
    assigned_to := none, is_resolved := false, created_at := 3,
    assigned_at := none, resolved_at := none }

/-- A resolved case and an assigned case, which `pendingEscalations`
must exclude. -/
def escRESOLVED : EscalationRec :=
  { session := 3, priority := .URGENT, reason := "c", ai_assessment := "z",
    assigned_to := none, is_resolved := true, created_at := 0,
    assigned_at := none, resolved_at := some 2 }

/-- A case already assigned to clinician 9. -/
def escASSIGNED : EscalationRec :=
  { session := 4, priority := .URGENT, reason := "d", ai_assessment := "w",
    assigned_to := some 9, is_resolved := false, created_at := 0,
    assigned_at := some 1, resolved_at := none }

/-- A database with one clinician already at the capacity limit. -/
def dbFull : Db :=
  { sessions := [sess1], escalations := [escHIGH],
    clinicians :=
      [{ clinician := 7, is_available := true, current_active_cases := 1,
         max_concurrent_cases := 1, last_active := 0 }] }

/-- A database holding the four queue cases above. -/
def dbQueue : Db :=
  { sessions := [], escalations := [escHIGH, escMEDIUM, escRESOLVED, escASSIGNED],
    clinicians := [] }

/-- The HIGH case as `create_escalation` rewrites it for `sess1`
(empty transcript, so the recomputed priority is MEDIUM). -/
def escWORRIED : EscalationRec :=
  { escHIGH with priority := .MEDIUM, reason := "patient worried" }

/-- A database with one idle clinician with spare capacity. -/
def dbIdle : Db :=
  { sessions := [sess1], escalations := [escHIGH],
    clinicians :=
      [{ clinician := 7, is_available := true, current_active_cases := 3,
         max_concurrent_cases := 5, last_active := 0 }] }

/-! ## Theorems -/

theorem leadsWith_append (n rest : List Char) : leadsWith n (n ++ rest) = true := by
  induction n with
  | nil => rfl
  | cons a as ih => simp [leadsWith, ih]

theorem leadsWith_self (n : List Char) : leadsWith n n = true := by
  simpa using leadsWith_append n []

theorem isSubChain_self (n : List Char) : isSubChain n n = true := by
  cases n with
  | nil => rfl
  | cons b bs => simp [isSubChain, leadsWith_self]

theorem isSubChain_append_left (n l₁ l₂ : List Char) (h : isSubChain n l₂ = true) :
    isSubChain n (l₁ ++ l₂) = true := by
  induction l₁ with
  | nil => simpa using h
  | cons a as ih =>
    cases hx : as ++ l₂ with
    | nil => simp [hx] at ih; simp [isSubChain, hx, ih]
    | cons z zs => simp [isSubChain, hx] at ih ⊢; tauto

theorem isSubChain_append_self (n l : List Char) : isSubChain n (l ++ n) = true :=
  isSubChain_append_left n l n (isSubChain_self n)

theorem joinSp_append_single (l : List (List Char)) (n : List Char) :
    ∃ pre, joinSp (l ++ [n]) = pre ++ n := by
  induction l with
  | nil => exact ⟨[], by simp [joinSp]⟩
  | cons x xs ih =>
    obtain ⟨pre, hp⟩ := ih
    cases hx : xs ++ [n] with
    | nil => simp at hx
    | cons z zs =>
      refine ⟨x ++ ' ' :: pre, ?_⟩
      rw [List.cons_append, hx]
      show x ++ ' ' :: joinSp (z :: zs) = (x ++ ' ' :: pre) ++ n
      rw [← hx, hp]
      simp

theorem isSubChain_joinSp_last (l : List (List Char)) (n : List Char) :
    isSubChain n (joinSp (l ++ [n])) = true := by
  obtain ⟨pre, hp⟩ := joinSp_append_single l n
  rw [hp]
  exact isSubChain_append_self n pre

theorem urgent_keywords_lower : ∀ kw ∈ URGENT_KEYWORDS, lowerStr kw = kw := by decide

theorem rank_le_three (p : Priority) : rank p ≤ 3 := by cases p <;> decide

/-- **C6.** Priority classification is a pure function of the session
and is monotone: appending a patient message consisting of an
urgent-symptom keyword never yields a lower tier (under
LOW < MEDIUM < HIGH < URGENT) than classifying without it — indeed the
extended transcript always classifies as `URGENT`, the top tier. -/
theorem c6_priority_monotone (s : SessionRec) (reason reason' kw : String)
    (hkw : kw ∈ URGENT_KEYWORDS) :
    rank (calculate_priority s reason) ≤
      rank (calculate_priority { s with messages := s.messages ++ [⟨kw, true⟩] } reason') := by
  have hlow : lowerStr kw = kw := urgent_keywords_lower kw hkw
  have htext : all_user_text { s with messages := s.messages ++ [⟨kw, true⟩] } =
      joinSp (((s.messages.filter (fun m => m.is_from_user)).map
        (fun m => (lowerStr m.content).toList)) ++ [kw.toList]) := by
    simp [all_user_text, List.filter_append, hlow]
  have hsub : isSubChain kw.toList
      (all_user_text { s with messages := s.messages ++ [⟨kw, true⟩] }) = true := by
    rw [htext]; exact isSubChain_joinSp_last _ _
  have hany : URGENT_KEYWORDS.any (fun k => isSubChain k.toList
      (all_user_text { s with messages := s.messages ++ [⟨kw, true⟩] })) = true :=
    List.any_eq_true.mpr ⟨kw, hkw, hsub⟩
  have hurg : calculate_priority { s with messages := s.messages ++ [⟨kw, true⟩] } reason'
      = .URGENT := by
    simp only [calculate_priority]
    rw [hany]
    simp
  rw [hurg]
  exact rank_le_three _

/-- Witness for C6: a dizziness transcript classifies at most as high
as the same transcript extended with the urgent keyword "chest pain". -/
theorem c6_priority_monotone_witness :
    "chest pain" ∈ URGENT_KEYWORDS ∧
    rank (calculate_priority
        { sess1 with messages := [⟨"i feel dizzy", true⟩] } "worried") ≤
      rank (calculate_priority
        { sess1 with messages := [⟨"i feel dizzy", true⟩, ⟨"chest pain", true⟩] } "worried") :=
  ⟨by decide,
   c6_priority_monotone { sess1 with messages := [⟨"i feel dizzy", true⟩] }
     "worried" "worried" "chest pain" (by decide)⟩

/-- **C1.** `transition_to` succeeds iff the target is in the current
state's allowed set or is one of the two emergency-override targets
(`CONNECT_TO_CLINICIAN`, called CONNECTING_TO_CLINICIAN by the spec, and
`COMPLETED`); on success the state becomes the target, on failure it is
unchanged. -/
theorem c1_transition_correct (s t : SessionState) :
    ((transition_to s t).1 = true ↔
      t ∈ STATE_TRANSITIONS s ∨ t = .CONNECT_TO_CLINICIAN ∨ t = .COMPLETED)
    ∧ ((transition_to s t).1 = true → (transition_to s t).2 = t)
    ∧ ((transition_to s t).1 = false → (transition_to s t).2 = s) := by
  cases s <;> cases t <;> decide

/-- Witness for C1: from `COMPLETED`, the target `NEW_USER` is refused
and the state is unchanged, while the override target
`CONNECT_TO_CLINICIAN` is accepted. -/
theorem c1_transition_correct_witness :
    (transition_to .COMPLETED .NEW_USER).2 = .COMPLETED
    ∧ (transition_to .COMPLETED .CONNECT_TO_CLINICIAN).1 = true := by
  refine ⟨(c1_transition_correct .COMPLETED .NEW_USER).2.2 (by decide), ?_⟩
  exact (c1_transition_correct .COMPLETED .CONNECT_TO_CLINICIAN).1.mpr (by decide)


/-- **C9.** Gender classification tests male keywords first by substring
match: any text whose lowercase form contains `"male"` or the letter
`"m"` — including the exact inputs `"female"` and `"Female"` — yields
`"Male"`, and `"Other"` arises only when no male or female keyword
occurs as a substring at all. -/
theorem c9_gender_male_first :
    (∀ message, (pyIn "male" (lowerStr message) = true ∨ pyIn "m" (lowerStr message) = true) →
      extract_gender message = "Male")
    ∧ extract_gender "female" = "Male"
    ∧ extract_gender "Female" = "Male"
    ∧ (∀ message, extract_gender message = "Other" →
        ∀ w ∈ ["male", "man", "boy", "m", "female", "woman", "girl", "f"],
          pyIn w (lowerStr message) = false) := by
  refine ⟨?_, by decide, by decide, ?_⟩
  · intro message h
    have hany : (["male", "man", "boy", "m"].any fun w => pyIn w (lowerStr message)) = true := by
      rcases h with h | h
      · exact List.any_eq_true.mpr ⟨"male", by simp, h⟩
      · exact List.any_eq_true.mpr ⟨"m", by simp, h⟩
    simp [extract_gender, hany]
  · intro message hother w hw
    simp only [extract_gender] at hother
    by_cases hm : (["male", "man", "boy", "m"].any fun w => pyIn w (lowerStr message)) = true
    · rw [if_pos hm] at hother
      exact absurd hother (by decide)
    · rw [if_neg hm] at hother
      by_cases hf : (["female", "woman", "girl", "f"].any fun w => pyIn w (lowerStr message))
          = true
      · rw [if_pos hf] at hother
        exact absurd hother (by decide)
      · have hm' := List.any_eq_false.mp (Bool.eq_false_iff.mpr hm)
        have hf' := List.any_eq_false.mp (Bool.eq_false_iff.mpr hf)
        refine Bool.eq_false_iff.mpr ?_
        simp only [List.mem_cons, List.not_mem_nil, or_false] at hw
        rcases hw with h | h | h | h | h | h | h | h <;> subst h
        exacts [hm' _ (by simp), hm' _ (by simp), hm' _ (by simp), hm' _ (by simp),
          hf' _ (by simp), hf' _ (by simp), hf' _ (by simp), hf' _ (by simp)]

/-- Witness for C9: the input "woman" lowercases to text containing
"m", so the classifier returns "Male". -/
theorem c9_gender_male_first_witness :
    pyIn "m" (lowerStr "woman") = true ∧ extract_gender "woman" = "Male" :=
  ⟨by decide, c9_gender_male_first.1 "woman" (Or.inr (by decide))⟩

/-- **C10.** In `COLLECTING_PROFILE` with both age and gender already
truthy, `_handle_profile_collection` falls through every branch, so
`generate_response` returns Python `None`, and the webhook's read of
the reply field (`ai_response['response']`, `views.py` line 112) then
raises instead of producing a reply. -/
theorem c10_profile_complete_none (o : Oracles) (age : Option Int) (gender : Option String)
    (session_data : List (String × PyVal)) (message : String)
    (hage : truthyInt age = true) (hgender : truthyStr gender = true) :
    generate_response o age gender session_data message .COLLECTING_PROFILE = none
    ∧ webhook_read_reply
        (generate_response o age gender session_data message .COLLECTING_PROFILE)
      = .error .noneTypeError := by
  have h : handle_profile_collection age gender message = none := by
    simp [handle_profile_collection, hage, hgender]
  exact ⟨by simp [generate_response, h], by simp [generate_response, h, webhook_read_reply]⟩

/-- Witness for C10: a session with age 30 and gender "Male" recorded
produces no turn result and the reply read fails. -/
theorem c10_profile_complete_none_witness :
    truthyInt (some 30) = true ∧ truthyStr (some "Male") = true ∧
    generate_response oFail (some 30) (some "Male") [] "hi" .COLLECTING_PROFILE = none :=
  ⟨by decide, by decide,
   (c10_profile_complete_none oFail (some 30) (some "Male") [] "hi" (by decide) (by decide)).1⟩

/-- **C7.** In `COLLECTING_SYMPTOMS`, when the completion-service call
fails or its payload does not parse, the turn still completes with the
fixed fallback question, `chief_complaint` set to the inbound message,
`question_count = 1`, and next state `AI_FOLLOWUP_QUESTIONS` (the
spec's AI_FOLLOWUP); the embedded handler is total, mirroring the
source's bare `except` that keeps the turn from raising. -/
theorem c7_symptom_failure_fallback (o : Oracles) (age : Option Int) (gender : Option String)
    (session_data : List (String × PyVal)) (message text : String)
    (hfail : o.api_symptom = none ∨ (o.api_symptom = some text ∧ o.parse_symptom text = none)) :
    generate_response o age gender session_data message .COLLECTING_SYMPTOMS =
      some { response := "Thank you for sharing that. When did these symptoms start?",
             next_state := .AI_FOLLOWUP_QUESTIONS,
             should_escalate := false,
             escalation_reason := none,
             data_to_store := [("chief_complaint", .str message), ("question_count", .int 1)] } := by
  rcases hfail with h | ⟨h1, h2⟩
  · simp [generate_response, handle_symptom_collection, h, fallback_symptom_response]
  · simp [generate_response, handle_symptom_collection, h1, h2, fallback_symptom_response]

/-- Witness for C7: with every service call failing, the symptom turn
returns exactly the fallback result. -/
theorem c7_symptom_failure_fallback_witness :
    generate_response oFail none none [] "headache" .COLLECTING_SYMPTOMS =
      some { response := "Thank you for sharing that. When did these symptoms start?",
             next_state := .AI_FOLLOWUP_QUESTIONS,
             should_escalate := false,
             escalation_reason := none,
             data_to_store := [("chief_complaint", .str "headache"), ("question_count", .int 1)] } :=
  c7_symptom_failure_fallback oFail none none [] "headache" "" (Or.inl rfl)

/-- **C3.** `assign_to_available_clinician` never reaches its intended
selection logic: the name `models` is unbound in
`clinician_escalation.py`, so evaluating the eligibility filter raises
`NameError` on every call, leaving the database untouched and the case
unassigned — the call neither assigns nor returns `False`. -/
theorem c3_assign_to_available_raises (now : Nat) (db : Db) (e : EscalationRec) :
    (assign_to_available_clinician now db e).2.2 = .error .nameError
    ∧ (assign_to_available_clinician now db e).1 = db
    ∧ (assign_to_available_clinician now db e).2.1 = e := by
  have h : "models" ∉ clinician_escalation_globals := by decide
  refine ⟨?_, ?_, ?_⟩ <;> simp [assign_to_available_clinician, h]

/-- **C4 (failing evaluation).** With a pending HIGH case older than a
pending MEDIUM case (plus a resolved and an assigned case, both
correctly excluded), `get_pending_escalations` returns the MEDIUM case
*before* the HIGH one: `ORDER BY priority DESC` on the text column
compares the tier names as strings ("MEDIUM" > "HIGH"), not by the
clinical order in which HIGH outranks MEDIUM. -/
theorem c4_pending_order_string_desc :
    get_pending_escalations dbQueue = [escMEDIUM, escHIGH]
    ∧ rank escMEDIUM.priority < rank escHIGH.priority := by decide

/-- **C8 (failing evaluation).** `create_escalation` on a session that
already has a case does update that case in place (recomputed priority,
new reason, assessment kept when none is given) and creates no
duplicate — but the call itself then raises `NameError` from the
unconditional `assign_to_available_clinician` attempt, so it never
returns the case. -/
theorem c8_create_escalation_raises :
    (create_escalation 5 dbIdle sess1 "patient worried" none).2 = .error .nameError
    ∧ (create_escalation 5 dbIdle sess1 "patient worried" none).1.escalations =
      [escWORRIED] :=
  ⟨rfl, by decide⟩

/-- **C2 (counterexample).** From a state satisfying the invariant
`0 ≤ current ≤ max` (one clinician at 1 of 1), a single
`assign_to_clinician` step pushes the counter to 2 > 1:
`assign_to_clinician` increments without any capacity check, so the
upper bound is not preserved. -/
theorem c2_capacity_counterexample :
    (∀ a ∈ dbFull.clinicians,
      0 ≤ a.current_active_cases ∧ a.current_active_cases ≤ a.max_concurrent_cases)
    ∧ ¬ (∀ a ∈ (runOps 0 dbFull [.assignOp 1 7]).clinicians,
      0 ≤ a.current_active_cases ∧ a.current_active_cases ≤ a.max_concurrent_cases) := by
  decide

theorem assign_clinicians (now : Nat) (db : Db) (e : EscalationRec) (c : Nat) :
    (assign_to_clinician now db e c).1.clinicians = (incClin db.clinicians c).1 := rfl

theorem assign_case (now : Nat) (db : Db) (e : EscalationRec) (c : Nat) :
    (assign_to_clinician now db e c).2.1
      = { e with assigned_to := some c, assigned_at := some now } := rfl

theorem resolve_clinicians (now : Nat) (db : Db) (e : EscalationRec) :
    (resolve_escalation now db e).clinicians =
      match e.assigned_to with
      | some c => decClin db.clinicians c
      | none => db.clinicians := by
  obtain ⟨es, ep, er, ea, easg, eres, ect, eat, ert⟩ := e
  cases easg <;> rfl

theorem setClinCount_nonneg (l : List ClinicianAvailabilityRec) (c : Nat) (v : Int)
    (hv : 0 ≤ v) (h : ∀ a ∈ l, 0 ≤ a.current_active_cases) :
    ∀ a ∈ setClinCount l c v, 0 ≤ a.current_active_cases := by
  intro a ha
  rcases List.mem_map.mp ha with ⟨b, hb, rfl⟩
  by_cases hbc : (b.clinician == c) = true
  · simp [hbc, hv]
  · simp only [Bool.not_eq_true] at hbc
    simp [hbc]
    exact h b hb

theorem incClin_nonneg (l : List ClinicianAvailabilityRec) (c : Nat)
    (h : ∀ a ∈ l, 0 ≤ a.current_active_cases) :
    ∀ a ∈ (incClin l c).1, 0 ≤ a.current_active_cases := by
  unfold incClin
  cases hfind : lookupClin l c with
  | none => simpa using h
  | some a0 =>
    have ha0 : a0 ∈ l := List.mem_of_find?_eq_some (show l.find? _ = some a0 from hfind)
    have hv : (0 : Int) ≤ a0.current_active_cases + 1 := by
      have := h a0 ha0
      omega
    simpa using setClinCount_nonneg l c _ hv h

theorem decClin_nonneg (l : List ClinicianAvailabilityRec) (c : Nat)
    (h : ∀ a ∈ l, 0 ≤ a.current_active_cases) :
    ∀ a ∈ decClin l c, 0 ≤ a.current_active_cases := by
  unfold decClin
  cases hfind : lookupClin l c with
  | none => simpa using h
  | some a0 =>
    have hv : (0 : Int) ≤ max 0 (a0.current_active_cases - 1) := le_max_left _ _
    simpa using setClinCount_nonneg l c _ hv h

theorem assign_preserves_nonneg (now : Nat) (db : Db) (e : EscalationRec) (c : Nat)
    (h : ∀ a ∈ db.clinicians, 0 ≤ a.current_active_cases) :
    ∀ a ∈ (assign_to_clinician now db e c).1.clinicians, 0 ≤ a.current_active_cases := by
  rw [assign_clinicians]
  exact incClin_nonneg db.clinicians c h

theorem resolve_preserves_nonneg (now : Nat) (db : Db) (e : EscalationRec)
    (h : ∀ a ∈ db.clinicians, 0 ≤ a.current_active_cases) :
    ∀ a ∈ (resolve_escalation now db e).clinicians, 0 ≤ a.current_active_cases := by
  rw [resolve_clinicians]
  cases e.assigned_to with
  | none => exact h
  | some c => exact decClin_nonneg db.clinicians c h

theorem runOp_preserves_nonneg (now : Nat) (db : Db) (op : DbOp)
    (h : ∀ a ∈ db.clinicians, 0 ≤ a.current_active_cases) :
    ∀ a ∈ (runOp now db op).clinicians, 0 ≤ a.current_active_cases := by
  cases op with
  | assignOp sid c =>
    simp only [runOp]
    cases lookupEsc db sid with
    | none => simpa using h
    | some e => simpa using assign_preserves_nonneg now db e c h
  | resolveOp sid =>
    simp only [runOp]
    cases lookupEsc db sid with
    | none => simpa using h
    | some e => simpa using resolve_preserves_nonneg now db e h

/-- **C2 (amended).** For every clinician, after every sequence of
assign/resolve operations starting from a state with non-negative
active-case counts, the counts remain non-negative. (The upper
capacity bound, refuted above, is not preserved because
`assign_to_clinician` increments unconditionally.) -/
theorem c2_nonneg_invariant (now : Nat) (ops : List DbOp) (db : Db)
    (h : ∀ a ∈ db.clinicians, 0 ≤ a.current_active_cases) :
    ∀ a ∈ (runOps now db ops).clinicians, 0 ≤ a.current_active_cases := by
  induction ops generalizing db with
  | nil => exact h
  | cons op ops ih => exact ih _ (runOp_preserves_nonneg now db op h)

/-- Witness for the amended C2: an assign followed by two resolves
(the second a double-resolve hitting the zero floor) keeps the counter
non-negative. -/
theorem c2_nonneg_invariant_witness :
    (∀ a ∈ dbFull.clinicians, 0 ≤ a.current_active_cases)
    ∧ ∀ a ∈ (runOps 0 dbFull [.assignOp 1 7, .resolveOp 1, .resolveOp 1]).clinicians,
        0 ≤ a.current_active_cases :=
  ⟨by decide, c2_nonneg_invariant 0 [.assignOp 1 7, .resolveOp 1, .resolveOp 1] dbFull (by decide)⟩

theorem lookupClin_setClinCount (l : List ClinicianAvailabilityRec) (c : Nat) (v : Int) :
    lookupClin (setClinCount l c v) c =
      (lookupClin l c).map (fun a => { a with current_active_cases := v }) := by
  induction l with
  | nil => rfl
  | cons b l ih =>
    simp only [lookupClin] at ih ⊢
    by_cases hbc : (b.clinician == c) = true
    · have h1 : setClinCount (b :: l) c v
          = { b with current_active_cases := v } :: setClinCount l c v := by
        simp only [setClinCount, List.map_cons]
        rw [if_pos hbc]
      have hL : List.find? (fun x => x.clinician == c)
          ({ b with current_active_cases := v } :: setClinCount l c v)
          = some { b with current_active_cases := v } :=
        List.find?_cons_of_pos _ hbc
      have hR : List.find? (fun x => x.clinician == c) (b :: l) = some b :=
        List.find?_cons_of_pos _ hbc
      rw [h1, hL, hR]
      rfl
    · have hbc' : (b.clinician == c) = false := by simpa using hbc
      have h1 : setClinCount (b :: l) c v = b :: setClinCount l c v := by
        simp only [setClinCount, List.map_cons]
        rw [if_neg (by simp [hbc'])]
      have hL : List.find? (fun x => x.clinician == c) (b :: setClinCount l c v)
          = List.find? (fun x => x.clinician == c) (setClinCount l c v) :=
        List.find?_cons_of_neg _ (by simp [hbc'])
      have hR : List.find? (fun x => x.clinician == c) (b :: l)
          = List.find? (fun x => x.clinician == c) l :=
        List.find?_cons_of_neg _ (by simp [hbc'])
      rw [h1, hL, hR]
      exact ih

/-- **C5.** For every clinician with an availability row holding a
non-negative count, `assign_to_clinician` followed by
`resolve_escalation` of the now-assigned case returns that clinician's
row — active-case count included — to exactly its pre-assignment
value. -/
theorem c5_assign_resolve_roundtrip (now now' : Nat) (db : Db) (e : EscalationRec) (c : Nat)
    (a : ClinicianAvailabilityRec) (hfind : lookupClin db.clinicians c = some a)
    (hnn : 0 ≤ a.current_active_cases) :
    lookupClin (resolve_escalation now' (assign_to_clinician now db e c).1
        (assign_to_clinician now db e c).2.1).clinicians c = some a := by
  have harith : max 0 (a.current_active_cases + 1 - 1) = a.current_active_cases := by omega
  have h1 : (incClin db.clinicians c).1
      = setClinCount db.clinicians c (a.current_active_cases + 1) := by
    unfold incClin
    rw [hfind]
  have h2 : decClin (setClinCount db.clinicians c (a.current_active_cases + 1)) c
      = setClinCount (setClinCount db.clinicians c (a.current_active_cases + 1)) c
          a.current_active_cases := by
    unfold decClin
    rw [lookupClin_setClinCount, hfind]
    have hv : (0 : Int) ⊔ a.current_active_cases = a.current_active_cases := max_eq_right hnn
    simp [hv]
  rw [resolve_clinicians, assign_case]
  show lookupClin (decClin (assign_to_clinician now db e c).1.clinicians c) c = some a
  rw [assign_clinicians, h1, h2]
  rw [lookupClin_setClinCount, lookupClin_setClinCount, hfind]
  simp

/-- Witness for C5: clinician 7 at 3 of 5 cases; after assigning the
HIGH case and resolving it, the row reads 3 of 5 again. -/
theorem c5_assign_resolve_roundtrip_witness :
    lookupClin dbIdle.clinicians 7 = some ⟨7, true, 3, 5, 0⟩
    ∧ (0 : Int) ≤ 3
    ∧ lookupClin (resolve_escalation 1 (assign_to_clinician 0 dbIdle escHIGH 7).1
        (assign_to_clinician 0 dbIdle escHIGH 7).2.1).clinicians 7 = some ⟨7, true, 3, 5, 0⟩ :=
  ⟨by decide, by decide,
   c5_assign_resolve_roundtrip 0 1 dbIdle escHIGH 7 ⟨7, true, 3, 5, 0⟩ (by decide) (by decide)⟩

end Lifegate
